import Mathlib

/-!
Shallow embedding of the `ReadoutError` class of
`src/qiskit/providers/aer/noise/errors/readout_error.py` (the variant the
claims cite; the near-duplicate `src/qiskit_aer/noise/readout_error.py`
differs only in the serialization payload and a hard-coded tolerance).

Numeric values (Python floats) are embedded as rationals; matrices as
lists of rows.  Each `raise NoiseError(...)` site is mapped to the error
kind the specification's taxonomy gives it.
-/

deriving instance DecidableEq for Except

namespace ReadoutModel

/-- Error kinds, one per distinct failure site of the source.  `overflow`
models the Python-level `OverflowError` raised by `int(np.log2(0))` when
the first row is empty (`np.log2(0)` is `-inf` and `int(-inf)` raises
before any dimension check can run); it is not a `NoiseError`. -/
inductive NoiseErr where
  | emptyInput
  | overflow
  | invalidDimension
  | notNormalized
  | negativeProbability
  | dimensionMismatch
  | invalidExponent
  | invalidTolerance
  deriving DecidableEq

/-- Matrices are lists of rows of rationals, mirroring the Python
list-of-lists / 2-D ndarray inputs. -/
abbrev Mat := List (List ℚ)

/-- Default absolute tolerance: `ATOL_DEFAULT` imported from
`qiskit.quantum_info.operators.predicates` (not under `src/`).
Modelled from the spec: the constructor docstring records
`[Default: 1e-8]`. -/
def ATOL_DEFAULT : ℚ := 1 / 10 ^ 8

/-- Default relative tolerance `RTOL_DEFAULT` imported from
`qiskit.quantum_info.operators.predicates` (not under `src/`).
Modelled from the spec: a small constant; its exact value is read by
nothing but the `rtol` getter. -/
def RTOL_DEFAULT : ℚ := 1 / 10 ^ 5

/-- The class constant `MAX_TOL = 1e-4`. -/
def MAX_TOL : ℚ := 1 / 10 ^ 4

/-- Python's built-in `abs` on a real number. -/
def ratAbs (x : ℚ) : ℚ := if x < 0 then -x else x

/-- The per-row body of the `for vec in probabilities` loop of
`_check_probabilities`: raise `InvalidDimension` on a length mismatch,
then `NotNormalized` when `abs(sum(vec) - 1) > threshold`, then
`NegativeProbability` when any entry is negative. -/
def checkRow (vec : List ℚ) (numOutcomes : Nat) (threshold : ℚ) :
    Except NoiseErr Unit :=
  if vec.length ≠ numOutcomes then .error .invalidDimension
  else if ratAbs (vec.sum - 1) > threshold then .error .notNormalized
  else if vec.any (fun x => x < 0) then .error .negativeProbability
  else .ok ()

/-- The `for vec in probabilities` loop itself: rows are checked in
order and the first failing row aborts. -/
def checkRows : List (List ℚ) → Nat → ℚ → Except NoiseErr Unit
  | [], _, _ => .ok ()
  | vec :: rest, n, t =>
    match checkRow vec n t with
    | .error e => .error e
    | .ok _ => checkRows rest n t

/-- `ReadoutError._check_probabilities(probabilities, threshold)`.
`int(np.log2(num_outcomes))` is `Nat.log2 num_outcomes` for
`num_outcomes ≥ 1` (floor of the base-2 logarithm; the float rounding of
`np.log2` cannot change the outcome of the `2**num_qubits != num_outcomes`
test, which holds exactly when `num_outcomes` is a power of two); for
`num_outcomes = 0` the Python expression raises `OverflowError`, modelled
by the `overflow` kind. -/
def checkProbabilities (probabilities : Mat) (threshold : ℚ) :
    Except NoiseErr Unit :=
  if probabilities.length = 0 then .error .emptyInput
  else if (probabilities.headD []).length = 0 then .error .overflow
  else if 2 ^ Nat.log2 (probabilities.headD []).length ≠
      (probabilities.headD []).length then .error .invalidDimension
  else if probabilities.length ≠ (probabilities.headD []).length then
    .error .invalidDimension
  else checkRows probabilities (probabilities.headD []).length threshold

/-- Helper `qubits_from_mat` from `errorutils` (not under `src/`).
Modelled from the spec: on success the constructor records
`qubit_count = log2(N)` where `N` is the validated side length. -/
def qubits_from_mat (mat : Mat) : Nat := Nat.log2 (mat.headD []).length

/-- The `ReadoutError` instance state: the stored probability matrix and
the derived qubit count, set by `__init__` after validation passes. -/
structure ReadoutError where
  probabilities : Mat
  number_of_qubits : Nat
  deriving DecidableEq

/-- `ReadoutError.__init__(probabilities, atol)`: validate, then store the
matrix and the derived qubit count. -/
def mkReadoutError (probabilities : Mat) (atol : ℚ) :
    Except NoiseErr ReadoutError :=
  match checkProbabilities probabilities atol with
  | .error e => .error e
  | .ok _ => .ok ⟨probabilities, qubits_from_mat probabilities⟩

/-- Dot product of two equal-length vectors, as the numeric library's
`np.dot` computes it on rows/columns. -/
def dotProd (u v : List ℚ) : ℚ := (List.zipWith (fun a b => a * b) u v).sum

/-- Column `j` of a matrix. -/
def getCol (B : Mat) (j : Nat) : List ℚ := B.map (fun r => r.getD j 0)

/-- Matrix product `np.dot(A, B)` of the host numeric library, on
well-formed (rectangular, compatible) matrices. -/
def matMul (A B : Mat) : Mat :=
  A.map (fun row =>
    (List.range (B.headD []).length).map (fun j => dotProd row (getCol B j)))

/-- Kronecker product `np.kron(A, B)` of the host numeric library: block
matrix scaling each entry of `A` by the whole of `B`. -/
def kron (A B : Mat) : Mat :=
  A.flatMap (fun arow =>
    B.map (fun brow => arow.flatMap (fun x => brow.map (fun y => x * y))))

/-- The `n × n` identity matrix `np.eye(n)`. -/
def eye (n : Nat) : Mat :=
  (List.range n).map (fun i => (List.range n).map (fun j => if i = j then (1 : ℚ) else 0))

/-- Entrywise matrix difference, on same-shaped matrices. -/
def matSub (A B : Mat) : Mat :=
  List.zipWith (fun r s => List.zipWith (fun a b => a - b) r s) A B

/-- Sum of the squares of all entries: the square of the Frobenius /
Euclidean norm `numpy.linalg.norm` returns on a 2-D array. -/
def sumSq (A : Mat) : ℚ := (A.map (fun r => (r.map (fun x => x * x)).sum)).sum

/-- `ReadoutError.ideal()`: `round(norm(probabilities - eye(2**n)), 12) == 0`.
Over the reals, the norm rounded (half-to-even) to 12 decimal digits is
exactly zero iff the norm is at most `5e-13`, i.e. iff its square is at
most `25e-26`; the square avoids the irrational square root. -/
def ideal (M : ReadoutError) : Bool :=
  decide (sumSq (matSub M.probabilities (eye (2 ^ M.number_of_qubits))) ≤ 25 / 10 ^ 26)

/-- The record returned by `ReadoutError.as_dict`. -/
structure ErrorDict where
  type : String
  operations : List String
  probabilities : Mat
  deriving DecidableEq

/-- `ReadoutError.as_dict()`. -/
def as_dict (M : ReadoutError) : ErrorDict :=
  { type := "roerror", operations := ["measure"],
    probabilities := M.probabilities }

/-- `ReadoutError.compose(other, front)`: check matching qubit counts,
multiply in the order selected by `front`, and re-validate through the
constructor (which uses its own default tolerance). -/
def compose (self other : ReadoutError) (front : Bool) :
    Except NoiseErr ReadoutError :=
  if self.number_of_qubits ≠ other.number_of_qubits then
    .error .dimensionMismatch
  else if front then
    mkReadoutError (matMul self.probabilities other.probabilities) ATOL_DEFAULT
  else
    mkReadoutError (matMul other.probabilities self.probabilities) ATOL_DEFAULT

/-- The `for _ in range(1, n)` loop of `ReadoutError.power`, with `k`
iterations left: `ret = ret.compose(self)` each step. -/
def powerLoop (self : ReadoutError) : ReadoutError → Nat → Except NoiseErr ReadoutError
  | ret, 0 => .ok ret
  | ret, k + 1 =>
    match compose ret self false with
    | .error e => .error e
    | .ok next => powerLoop self next k

/-- `ReadoutError.power(n)`: reject non-positive exponents, then fold
`compose` left-to-right starting from a copy of `self`. -/
def power (self : ReadoutError) (n : ℤ) : Except NoiseErr ReadoutError :=
  if n < 1 then .error .invalidExponent
  else powerLoop self self (n.toNat - 1)

/-- `ReadoutError._tensor_product(other, reverse)`: Kronecker product in
the order selected by `reverse`, re-validated through the constructor. -/
def tensorProduct (self other : ReadoutError) (reverse : Bool) :
    Except NoiseErr ReadoutError :=
  if reverse then
    mkReadoutError (kron other.probabilities self.probabilities) ATOL_DEFAULT
  else
    mkReadoutError (kron self.probabilities other.probabilities) ATOL_DEFAULT

/-- `ReadoutError.tensor(other)`. -/
def tensor (self other : ReadoutError) : Except NoiseErr ReadoutError :=
  tensorProduct self other false

/-- `ReadoutError.expand(other)`. -/
def expand (self other : ReadoutError) : Except NoiseErr ReadoutError :=
  tensorProduct self other true

/-- The process-wide mutable class state: the class attributes
`ReadoutError.ATOL` and `ReadoutError.RTOL`, passed explicitly. -/
structure Config where
  atol : ℚ
  rtol : ℚ
  deriving DecidableEq

/-- The class state at module load: `ATOL = ATOL_DEFAULT`,
`RTOL = RTOL_DEFAULT`. -/
def initConfig : Config := ⟨ATOL_DEFAULT, RTOL_DEFAULT⟩

/-- The `atol` property setter: reject values outside `[0, MAX_TOL]`,
otherwise update the class attribute. -/
def set_atol (cfg : Config) (a : ℚ) : Except NoiseErr Config :=
  if a < 0 then .error .invalidTolerance
  else if a > MAX_TOL then .error .invalidTolerance
  else .ok { cfg with atol := a }

/-- The `rtol` property setter: reject values outside `[0, MAX_TOL]`,
otherwise update the class attribute. -/
def set_rtol (cfg : Config) (r : ℚ) : Except NoiseErr Config :=
  if r < 0 then .error .invalidTolerance
  else if r > MAX_TOL then .error .invalidTolerance
  else .ok { cfg with rtol := r }

/-- The `atol` property getter reads the class attribute. -/
def get_atol (cfg : Config) : ℚ := cfg.atol

/-- The `rtol` property getter reads the class attribute. -/
def get_rtol (cfg : Config) : ℚ := cfg.rtol

/-!
State-indexed forms of the operations: each takes the class state under
which it is invoked.  In the source, `__init__`'s default tolerance is the
module constant `ATOL_DEFAULT` captured when the `def` statement ran — a
Python default argument is evaluated once at definition time — so a call
`ReadoutError(probs)` validates against `ATOL_DEFAULT` whatever the
current value of the mutable class attribute `ReadoutError.ATOL`; and no
method body other than the two tolerance getters reads either class
attribute.  The state parameter below is therefore used by nothing but
those getters — which is exactly what these definitions record.
-/

/-- `ReadoutError(probs)` — construction without an explicit tolerance —
invoked with class state `cfg`. -/
def createSt (cfg : Config) (probabilities : Mat) : Except NoiseErr ReadoutError :=
  mkReadoutError probabilities ATOL_DEFAULT

/-- `compose` invoked with class state `cfg`. -/
def composeSt (cfg : Config) (self other : ReadoutError) (front : Bool) :
    Except NoiseErr ReadoutError :=
  compose self other front

/-- `tensor` invoked with class state `cfg`. -/
def tensorSt (cfg : Config) (self other : ReadoutError) :
    Except NoiseErr ReadoutError :=
  tensor self other

/-- `expand` invoked with class state `cfg`. -/
def expandSt (cfg : Config) (self other : ReadoutError) :
    Except NoiseErr ReadoutError :=
  expand self other

/-- `power` invoked with class state `cfg`. -/
def powerSt (cfg : Config) (self : ReadoutError) (n : ℤ) :
    Except NoiseErr ReadoutError :=
  power self n

/-- `ideal` invoked with class state `cfg`. -/
def idealSt (cfg : Config) (self : ReadoutError) : Bool := ideal self

/-- `as_dict` invoked with class state `cfg`. -/
def as_dictSt (cfg : Config) (self : ReadoutError) : ErrorDict := as_dict self

/-- The 1-qubit instance built from `[[0.9, 0.1], [0.2, 0.8]]`, a test
matrix of the spec. -/
def errA : ReadoutError := ⟨[[9/10, 1/10], [2/10, 8/10]], 1⟩

/-- The 1-qubit identity instance built from `[[1, 0], [0, 1]]`. -/
def errI : ReadoutError := ⟨[[1, 0], [0, 1]], 1⟩

/-- The 0-qubit instance built from `[[1.0]]`. -/
def err0 : ReadoutError := ⟨[[1]], 0⟩

/-!
Helper lemmas shared by the claim theorems.
-/

/-- Success of the constructor is success of the validation, and the
instance stores exactly the input matrix and the derived qubit count. -/
theorem mkReadoutError_ok_iff {p : Mat} {a : ℚ} {M : ReadoutError} :
    mkReadoutError p a = .ok M ↔
      checkProbabilities p a = .ok () ∧ M = ⟨p, qubits_from_mat p⟩ := by
  unfold mkReadoutError
  cases h : checkProbabilities p a with
  | error e => simp
  | ok u =>
    cases u
    constructor
    · intro hM
      exact ⟨rfl, by cases hM; rfl⟩
    · intro hM
      rw [hM.2]

/-- A matrix that passes validation is non-empty, its first row is
non-empty of power-of-two length, and it has as many rows as that. -/
theorem checkProbabilities_ok_shape {p : Mat} {a : ℚ}
    (h : checkProbabilities p a = .ok ()) :
    p.length ≠ 0 ∧ (p.headD []).length ≠ 0 ∧
    2 ^ Nat.log2 (p.headD []).length = (p.headD []).length ∧
    p.length = (p.headD []).length := by
  unfold checkProbabilities at h
  split_ifs at h with h1 h2 h3 h4
  exact ⟨h1, h2, not_not.mp h3, not_not.mp h4⟩

/-- Unfolding of the row loop at a cons cell: the head row's three
checks run in order and the first failure aborts the loop. -/
theorem checkRows_cons (vec : List ℚ) (rest : List (List ℚ)) (n : ℕ) (t : ℚ) :
    checkRows (vec :: rest) n t =
      if vec.length ≠ n then .error .invalidDimension
      else if ratAbs (vec.sum - 1) > t then .error .notNormalized
      else if vec.any (fun x => x < 0) then .error .negativeProbability
      else checkRows rest n t := by
  show (match checkRow vec n t with
    | .error e => (.error e : Except NoiseErr Unit)
    | .ok _ => checkRows rest n t) = _
  unfold checkRow
  split_ifs <;> rfl

/-- Base-two logarithm of a power of two. -/
theorem log2_two_pow (n : ℕ) : Nat.log2 (2 ^ n) = n := by
  rw [Nat.log2_eq_log_two]
  exact Nat.log_pow (by norm_num) n

/-- The rows of the Kronecker product built from one row of `A` all have
length `|row| * |b0|` when every row of `B` is paired; specialised to the
leading row. -/
theorem flatMap_scale_length (b0 : List ℚ) :
    ∀ a0 : List ℚ,
      (a0.flatMap (fun x => b0.map (fun y => x * y))).length =
        a0.length * b0.length
  | [] => by simp
  | x :: rest => by
    simp only [List.flatMap_cons, List.length_append, List.length_map,
      List.length_cons, flatMap_scale_length b0 rest]
    ring

/-- The first row of a Kronecker product of non-empty matrices has the
product of the operands' first-row lengths. -/
theorem kron_headD_length (a0 b0 : List ℚ) (ar br : List (List ℚ)) :
    ((kron (a0 :: ar) (b0 :: br)).headD []).length = a0.length * b0.length := by
  simp only [kron, List.flatMap_cons, List.map_cons, List.cons_append,
    List.headD_cons]
  exact flatMap_scale_length b0 a0

/-- The derived qubit count of a Kronecker product of two matrices whose
leading rows have power-of-two lengths is the sum of the operands'
derived qubit counts. -/
theorem qubits_from_mat_kron (x0 y0 : List ℚ) (xr yr : List (List ℚ))
    (hx : 2 ^ Nat.log2 x0.length = x0.length)
    (hy : 2 ^ Nat.log2 y0.length = y0.length) :
    qubits_from_mat (kron (x0 :: xr) (y0 :: yr)) =
      qubits_from_mat (x0 :: xr) + qubits_from_mat (y0 :: yr) := by
  unfold qubits_from_mat
  rw [kron_headD_length, List.headD_cons, List.headD_cons]
  conv_lhs => rw [← hx, ← hy, ← pow_add]
  rw [log2_two_pow]

/-!
Claim theorems.
-/

/-- C1 (counterexample): the claim says the serialized `type` field is
the fixed string `"readout_error"`, but on the concretely constructed
valid instance from `[[1.0]]` both source variants emit `"roerror"`. -/
theorem c1_serialize_type_counterexample :
    mkReadoutError [[1]] ATOL_DEFAULT = .ok err0 ∧
    (as_dict err0).type = "roerror" ∧
    (as_dict err0).type ≠ "readout_error" := by
  refine ⟨by with_unfolding_all rfl, rfl, by decide⟩

/-- C1 (amended): for every instance, `as_dict` returns the record whose
`type` field is the fixed string `"roerror"`, whose `operations` field is
the single-element sequence `["measure"]`, and whose `probabilities`
field is the stored matrix, rows and entries preserved exactly. -/
theorem c1_serialize_fields (M : ReadoutError) :
    as_dict M = ⟨"roerror", ["measure"], M.probabilities⟩ := rfl

/-- C7: `ideal` is true iff the Euclidean norm of `matrix - I`, rounded
half-to-even to 12 decimal digits, is exactly zero — over the reals that
rounding is zero iff the norm is at most `5e-13`, i.e. iff the squared
norm is at most `25e-26`, which is the embedded test; moreover
`[[1, 0], [0, 1]]` constructs a 1-qubit instance that is ideal, and
`[[0.9, 0.1], [0.2, 0.8]]` constructs one that is not. -/
theorem c7_ideal_spec :
    (∀ M : ReadoutError, ideal M = true ↔
      sumSq (matSub M.probabilities (eye (2 ^ M.number_of_qubits))) ≤
        25 / 10 ^ 26) ∧
    mkReadoutError [[1, 0], [0, 1]] ATOL_DEFAULT = .ok errI ∧
    errI.number_of_qubits = 1 ∧
    ideal errI = true ∧
    mkReadoutError [[9/10, 1/10], [2/10, 8/10]] ATOL_DEFAULT = .ok errA ∧
    ideal errA = false := by
  refine ⟨fun M => decide_eq_true_iff, ?_, rfl, ?_, ?_, ?_⟩
  · with_unfolding_all rfl
  · with_unfolding_all rfl
  · with_unfolding_all rfl
  · with_unfolding_all rfl

/-- C8: both tolerance setters reject exactly the values outside
`[0, MAX_TOL]` with `InvalidTolerance`, and for values inside the range
they succeed and update the process-wide setting. -/
theorem c8_tolerance_setters (cfg : Config) (v : ℚ) :
    ((v < 0 ∨ v > MAX_TOL) →
      set_atol cfg v = .error .invalidTolerance ∧
      set_rtol cfg v = .error .invalidTolerance) ∧
    (0 ≤ v → v ≤ MAX_TOL →
      set_atol cfg v = .ok ⟨v, cfg.rtol⟩ ∧
      set_rtol cfg v = .ok ⟨cfg.atol, v⟩) := by
  have hM : (0 : ℚ) < MAX_TOL := by unfold MAX_TOL; norm_num
  constructor
  · intro hv
    unfold set_atol set_rtol
    rcases hv with hneg | hbig
    · rw [if_pos hneg, if_pos hneg]
      exact ⟨rfl, rfl⟩
    · rw [if_neg (by linarith), if_pos hbig, if_neg (by linarith), if_pos hbig]
      exact ⟨rfl, rfl⟩
  · intro hlo hhi
    unfold set_atol set_rtol
    rw [if_neg (by linarith), if_neg (by linarith),
      if_neg (by linarith), if_neg (by linarith)]
    exact ⟨rfl, rfl⟩

/-- C8 (witness): `1e-3` and `-1` are rejected by both setters, while
`MAX_TOL` itself is accepted and stored. -/
theorem c8_tolerance_setters_witness :
    (set_atol initConfig (1/10^3) = .error .invalidTolerance ∧
     set_rtol initConfig (1/10^3) = .error .invalidTolerance) ∧
    (set_atol initConfig (-1) = .error .invalidTolerance ∧
     set_rtol initConfig (-1) = .error .invalidTolerance) ∧
    (set_atol initConfig MAX_TOL = .ok ⟨MAX_TOL, initConfig.rtol⟩ ∧
     set_rtol initConfig MAX_TOL = .ok ⟨initConfig.atol, MAX_TOL⟩) :=
  ⟨(c8_tolerance_setters initConfig (1/10^3)).1
      (Or.inr (by with_unfolding_all decide)),
   (c8_tolerance_setters initConfig (-1)).1
      (Or.inl (by with_unfolding_all decide)),
   (c8_tolerance_setters initConfig MAX_TOL).2
      (by with_unfolding_all decide) le_rfl⟩

/-- C9: two class states agreeing on `atol` and differing only in an
in-range `rtol` are indistinguishable to construction, composition,
tensoring, expansion, exponentiation, identity detection and
serialization: none of those reads the `RTOL` class attribute. -/
theorem c9_rtol_noninterference (c₁ c₂ : Config)
    (hatol : c₁.atol = c₂.atol)
    (h₁ : 0 ≤ c₁.rtol ∧ c₁.rtol ≤ MAX_TOL)
    (h₂ : 0 ≤ c₂.rtol ∧ c₂.rtol ≤ MAX_TOL) :
    (∀ p, createSt c₁ p = createSt c₂ p) ∧
    (∀ A B front, composeSt c₁ A B front = composeSt c₂ A B front) ∧
    (∀ A B, tensorSt c₁ A B = tensorSt c₂ A B) ∧
    (∀ A B, expandSt c₁ A B = expandSt c₂ A B) ∧
    (∀ A n, powerSt c₁ A n = powerSt c₂ A n) ∧
    (∀ A, idealSt c₁ A = idealSt c₂ A) ∧
    (∀ A, as_dictSt c₁ A = as_dictSt c₂ A) :=
  ⟨fun _ => rfl, fun _ _ _ => rfl, fun _ _ => rfl, fun _ _ => rfl,
   fun _ _ => rfl, fun _ => rfl, fun _ => rfl⟩

/-- C9 (witness): runs under `rtol = 0` and `rtol = MAX_TOL` agree on a
concrete construction and a concrete composition. -/
theorem c9_rtol_noninterference_witness :
    createSt ⟨ATOL_DEFAULT, 0⟩ [[1]] = createSt ⟨ATOL_DEFAULT, MAX_TOL⟩ [[1]] ∧
    composeSt ⟨ATOL_DEFAULT, 0⟩ errA errI false =
      composeSt ⟨ATOL_DEFAULT, MAX_TOL⟩ errA errI false :=
  ⟨(c9_rtol_noninterference ⟨ATOL_DEFAULT, 0⟩ ⟨ATOL_DEFAULT, MAX_TOL⟩ rfl
      ⟨le_rfl, by with_unfolding_all decide⟩
      ⟨by with_unfolding_all decide, le_rfl⟩).1 [[1]],
   (c9_rtol_noninterference ⟨ATOL_DEFAULT, 0⟩ ⟨ATOL_DEFAULT, MAX_TOL⟩ rfl
      ⟨le_rfl, by with_unfolding_all decide⟩
      ⟨by with_unfolding_all decide, le_rfl⟩).2.1 errA errI false⟩

/-- C10: the 1×1 input `[[1.0]]` passes every validation check — its
side length `1 = 2^0` passes the power-of-two test — and construction
produces the valid zero-qubit instance. -/
theorem c10_trivial_matrix :
    checkProbabilities [[1]] ATOL_DEFAULT = .ok () ∧
    2 ^ Nat.log2 1 = 1 ∧
    mkReadoutError [[1]] ATOL_DEFAULT = .ok err0 ∧
    err0.number_of_qubits = 0 := by
  refine ⟨by with_unfolding_all rfl, by with_unfolding_all rfl,
    by with_unfolding_all rfl, rfl⟩

/-- C2: `compose` fails with `DimensionMismatch` whenever the qubit
counts differ; otherwise, when it yields a result, the result's matrix
is `B · A` for `front = false` (other's matrix left-multiplies self's)
and `A · B` for `front = true`. -/
theorem c2_compose_spec (self other : ReadoutError) :
    (∀ front, self.number_of_qubits ≠ other.number_of_qubits →
      compose self other front = .error .dimensionMismatch) ∧
    (∀ C, compose self other false = .ok C →
      C.probabilities = matMul other.probabilities self.probabilities) ∧
    (∀ C, compose self other true = .ok C →
      C.probabilities = matMul self.probabilities other.probabilities) := by
  refine ⟨?_, ?_, ?_⟩
  · intro front hne
    unfold compose
    rw [if_pos hne]
  · intro C hC
    unfold compose at hC
    by_cases hq : self.number_of_qubits ≠ other.number_of_qubits
    · rw [if_pos hq] at hC
      exact Except.noConfusion hC
    · rw [if_neg hq, if_neg (by decide : ¬(false = true))] at hC
      rw [(mkReadoutError_ok_iff.mp hC).2]
  · intro C hC
    unfold compose at hC
    by_cases hq : self.number_of_qubits ≠ other.number_of_qubits
    · rw [if_pos hq] at hC
      exact Except.noConfusion hC
    · rw [if_neg hq, if_pos (rfl : true = true)] at hC
      rw [(mkReadoutError_ok_iff.mp hC).2]

/-- C2 (witness): composing a 0-qubit with a 1-qubit error mismatches,
and composing `[[0.9,0.1],[0.2,0.8]]` with the identity in both
orderings yields the expected matrix products. -/
theorem c2_compose_spec_witness :
    compose err0 errA false = .error .dimensionMismatch ∧
    errA.probabilities = matMul errI.probabilities errA.probabilities ∧
    errA.probabilities = matMul errA.probabilities errI.probabilities :=
  ⟨(c2_compose_spec err0 errA).1 false (by decide),
   (c2_compose_spec errA errI).2.1 errA (by with_unfolding_all rfl),
   (c2_compose_spec errA errI).2.2 errA (by with_unfolding_all rfl)⟩

/-- C3 (counterexample): the claim says a first row whose length `N` is
not a power of two is reported as `InvalidDimension`; but for the input
`[[]]` — one row, `N = 0`, and `0` is not a power of two since
`2 ^ int(log2(0))` is tested against `0` — the source instead crashes in
`int(np.log2(0))` (`int(-inf)` raises `OverflowError`), an unclassified
failure distinct from `InvalidDimension`. -/
theorem c3_validation_counterexample :
    mkReadoutError [(([] : List ℚ))] ATOL_DEFAULT = .error .overflow ∧
    checkProbabilities [(([] : List ℚ))] ATOL_DEFAULT = .error .overflow ∧
    NoiseErr.overflow ≠ NoiseErr.invalidDimension := by
  refine ⟨by with_unfolding_all rfl, by with_unfolding_all rfl, by decide⟩

/-- C3 (amended): validation runs its checks in a fixed order and the
first failing check determines the error kind — `EmptyInput` for zero
rows; then, with `N` the first row's length, an uncategorized overflow
crash when `N = 0`; then `InvalidDimension` when `N ≥ 1` is not a power
of two; then `InvalidDimension` when the row count differs from `N`;
then the rows are scanned in order and for each row in turn:
`InvalidDimension` on a length mismatch, then `NotNormalized` when its
sum strays from 1 by more than the tolerance, then
`NegativeProbability` on a negative entry. -/
theorem c3_validation_order (p : Mat) (t : ℚ) :
    (p.length = 0 → checkProbabilities p t = .error .emptyInput) ∧
    (p.length ≠ 0 → (p.headD []).length = 0 →
      checkProbabilities p t = .error .overflow) ∧
    (p.length ≠ 0 → (p.headD []).length ≠ 0 →
      2 ^ Nat.log2 (p.headD []).length ≠ (p.headD []).length →
      checkProbabilities p t = .error .invalidDimension) ∧
    (p.length ≠ 0 → (p.headD []).length ≠ 0 →
      2 ^ Nat.log2 (p.headD []).length = (p.headD []).length →
      p.length ≠ (p.headD []).length →
      checkProbabilities p t = .error .invalidDimension) ∧
    (p.length ≠ 0 → (p.headD []).length ≠ 0 →
      2 ^ Nat.log2 (p.headD []).length = (p.headD []).length →
      p.length = (p.headD []).length →
      checkProbabilities p t = checkRows p (p.headD []).length t) ∧
    (∀ vec rest n,
      checkRows (vec :: rest) n t =
        if vec.length ≠ n then .error .invalidDimension
        else if ratAbs (vec.sum - 1) > t then .error .notNormalized
        else if vec.any (fun x => x < 0) then .error .negativeProbability
        else checkRows rest n t) := by
  refine ⟨?_, ?_, ?_, ?_, ?_, ?_⟩
  · intro h1
    unfold checkProbabilities
    rw [if_pos h1]
  · intro h1 h2
    unfold checkProbabilities
    rw [if_neg h1, if_pos h2]
  · intro h1 h2 h3
    unfold checkProbabilities
    rw [if_neg h1, if_neg h2, if_pos h3]
  · intro h1 h2 h3 h4
    unfold checkProbabilities
    rw [if_neg h1, if_neg h2, if_neg (not_not.mpr h3), if_pos h4]
  · intro h1 h2 h3 h4
    unfold checkProbabilities
    rw [if_neg h1, if_neg h2, if_neg (not_not.mpr h3),
      if_neg (not_not.mpr h4)]
  · intro vec rest n
    exact checkRows_cons vec rest n t

/-- C3 (witness): the ordering theorem evaluated at concrete inputs for
the empty-input, overflow, non-power-of-two and non-square stages, and
at a concrete row for the per-row stage. -/
theorem c3_validation_order_witness :
    checkProbabilities ([] : Mat) 0 = .error .emptyInput ∧
    checkProbabilities [(([] : List ℚ))] 0 = .error .overflow ∧
    checkProbabilities [[1, 0, 0]] 0 = .error .invalidDimension ∧
    checkProbabilities [[1, 0]] 0 = .error .invalidDimension ∧
    checkProbabilities [[1, 0], [0, 1]] 0 =
      checkRows [[1, 0], [0, 1]] 2 0 ∧
    checkRows [[1, 0], [0, 1]] 2 (0 : ℚ) =
      (if ([1, 0] : List ℚ).length ≠ 2 then .error .invalidDimension
       else if ratAbs (([1, 0] : List ℚ).sum - 1) > (0 : ℚ) then
         .error .notNormalized
       else if ([1, 0] : List ℚ).any (fun x => x < 0) then
         .error .negativeProbability
       else checkRows [[0, 1]] 2 0) :=
  by
  refine ⟨(c3_validation_order [] 0).1 rfl, ?_, ?_, ?_, ?_, ?_⟩
  · exact (c3_validation_order [(([] : List ℚ))] 0).2.1 (by decide) rfl
  · exact (c3_validation_order [[1, 0, 0]] 0).2.2.1 (by decide) (by decide)
      (by with_unfolding_all decide)
  · exact (c3_validation_order [[1, 0]] 0).2.2.2.1 (by decide) (by decide)
      (by with_unfolding_all decide) (by decide)
  · exact (c3_validation_order [[1, 0], [0, 1]] 0).2.2.2.2.1 (by decide)
      (by decide) (by with_unfolding_all decide) (by decide)
  · exact (c3_validation_order [[1, 0], [0, 1]] 0).2.2.2.2.2 [1, 0] [[0, 1]] 2

/-- C4 (counterexample): the claim says that after setting `atol` to
`t = MAX_TOL`, a construction without an explicit tolerance fails with
`NotNormalized` exactly when a row's sum strays from 1 by more than `t`;
but the constructor's default tolerance is the constant `ATOL_DEFAULT`
captured at definition time, so the row `[1 + 5e-5]`, within `t` of
normalization, is still rejected. -/
theorem c4_atol_setter_counterexample :
    set_atol initConfig MAX_TOL = .ok ⟨MAX_TOL, RTOL_DEFAULT⟩ ∧
    ratAbs ((20001 : ℚ)/20000 - 1) ≤ MAX_TOL ∧
    createSt ⟨MAX_TOL, RTOL_DEFAULT⟩ [[20001/20000]] =
      .error .notNormalized := by
  refine ⟨by with_unfolding_all rfl, by with_unfolding_all decide,
    by with_unfolding_all rfl⟩

/-- C4 (amended): a successful set of `atol` to `t` updates only the
value the `atol` accessor returns (existing instances are untouched and
`rtol` is unchanged); every subsequent construction that does not pass
an explicit tolerance keeps validating against the fixed default
`ATOL_DEFAULT = 1e-8` bound when the constructor was defined, not
against `t`. -/
theorem c4_atol_setter_amended (cfg cfg₂ : Config) (t : ℚ)
    (h : set_atol cfg t = .ok cfg₂) :
    get_atol cfg₂ = t ∧ cfg₂.rtol = cfg.rtol ∧
    ∀ p, createSt cfg₂ p = mkReadoutError p ATOL_DEFAULT := by
  unfold set_atol at h
  split_ifs at h
  cases h
  exact ⟨rfl, rfl, fun p => rfl⟩

/-- C4 (witness): setting `atol` to `MAX_TOL` on the initial state is
read back by the accessor, leaves `rtol` alone, and leaves
parameterless construction at the fixed default tolerance. -/
theorem c4_atol_setter_amended_witness :
    get_atol ⟨MAX_TOL, RTOL_DEFAULT⟩ = MAX_TOL ∧
    Config.rtol ⟨MAX_TOL, RTOL_DEFAULT⟩ = initConfig.rtol ∧
    ∀ p, createSt ⟨MAX_TOL, RTOL_DEFAULT⟩ p = mkReadoutError p ATOL_DEFAULT :=
  c4_atol_setter_amended initConfig ⟨MAX_TOL, RTOL_DEFAULT⟩ MAX_TOL
    (by with_unfolding_all rfl)

/-- C5: `power` fails with `InvalidExponent` on every exponent below 1
(in particular 0 and -1); `power 1` returns the instance itself (a copy
with an equal matrix); and `power 2` is exactly `compose` with itself
under the default ordering, by left-to-right accumulation. -/
theorem c5_power_spec (M : ReadoutError) (n : ℤ) :
    (n < 1 → power M n = .error .invalidExponent) ∧
    power M 1 = .ok M ∧
    power M 2 = compose M M false := by
  refine ⟨?_, ?_, ?_⟩
  · intro hn
    unfold power
    rw [if_pos hn]
  · rfl
  · show powerLoop M M ((2 : ℤ).toNat - 1) = compose M M false
    have h1 : (2 : ℤ).toNat - 1 = 1 := rfl
    rw [h1]
    show (match compose M M false with
      | .error e => .error e
      | .ok next => powerLoop M next 0) = compose M M false
    cases hc : compose M M false <;> rfl

/-- C5 (witness): the exponent rules evaluated on the concrete instance
from `[[0.9, 0.1], [0.2, 0.8]]` at exponents -1, 0, 1 and 2. -/
theorem c5_power_spec_witness :
    power errA (-1) = .error .invalidExponent ∧
    power errA 0 = .error .invalidExponent ∧
    power errA 1 = .ok errA ∧
    power errA 2 = compose errA errA false :=
  ⟨(c5_power_spec errA (-1)).1 (by decide),
   (c5_power_spec errA 0).1 (by decide),
   (c5_power_spec errA 1).2.1,
   (c5_power_spec errA 2).2.2⟩

/-- C6: for valid operands, `tensor` computes the Kronecker product
`self ⊗ other` (self's qubits the more-significant block), `expand`
computes `other ⊗ self`, the result's qubit count is the sum of the
operands' qubit counts, and `A.tensor B` coincides with `B.expand A`. -/
theorem c6_tensor_expand_spec (A B : ReadoutError) (pA pB : Mat) (aA aB : ℚ)
    (hA : mkReadoutError pA aA = .ok A) (hB : mkReadoutError pB aB = .ok B) :
    (∀ C, tensor A B = .ok C →
      C.probabilities = kron A.probabilities B.probabilities ∧
      C.number_of_qubits = A.number_of_qubits + B.number_of_qubits) ∧
    (∀ C, expand A B = .ok C →
      C.probabilities = kron B.probabilities A.probabilities ∧
      C.number_of_qubits = B.number_of_qubits + A.number_of_qubits) ∧
    tensor A B = expand B A := by
  obtain ⟨hchkA, rfl⟩ := mkReadoutError_ok_iff.mp hA
  obtain ⟨hchkB, rfl⟩ := mkReadoutError_ok_iff.mp hB
  obtain ⟨hA1, -, hA3, -⟩ := checkProbabilities_ok_shape hchkA
  obtain ⟨hB1, -, hB3, -⟩ := checkProbabilities_ok_shape hchkB
  refine ⟨?_, ?_, rfl⟩
  · intro C hC
    unfold tensor tensorProduct at hC
    rw [if_neg (by decide : ¬(false = true))] at hC
    obtain ⟨-, rfl⟩ := mkReadoutError_ok_iff.mp hC
    refine ⟨rfl, ?_⟩
    show qubits_from_mat (kron pA pB) =
      qubits_from_mat pA + qubits_from_mat pB
    cases pA with
    | nil => exact absurd rfl hA1
    | cons a0 ar =>
      cases pB with
      | nil => exact absurd rfl hB1
      | cons b0 br =>
        rw [List.headD_cons] at hA3
        rw [List.headD_cons] at hB3
        exact qubits_from_mat_kron a0 b0 ar br hA3 hB3
  · intro C hC
    unfold expand tensorProduct at hC
    rw [if_pos (rfl : true = true)] at hC
    obtain ⟨-, rfl⟩ := mkReadoutError_ok_iff.mp hC
    refine ⟨rfl, ?_⟩
    show qubits_from_mat (kron pB pA) =
      qubits_from_mat pB + qubits_from_mat pA
    cases pA with
    | nil => exact absurd rfl hA1
    | cons a0 ar =>
      cases pB with
      | nil => exact absurd rfl hB1
      | cons b0 br =>
        rw [List.headD_cons] at hA3
        rw [List.headD_cons] at hB3
        exact qubits_from_mat_kron b0 a0 br ar hB3 hA3

/-- C6 (witness): tensoring the 1-qubit instances from
`[[0.9, 0.1], [0.2, 0.8]]` and the identity yields the concrete 4×4
Kronecker product with qubit count `2 = 1 + 1`, and agrees with `expand`
under swapped operands. -/
theorem c6_tensor_expand_spec_witness :
    ((⟨kron errA.probabilities errI.probabilities, 2⟩ : ReadoutError).probabilities =
        kron errA.probabilities errI.probabilities ∧
     (⟨kron errA.probabilities errI.probabilities, 2⟩ : ReadoutError).number_of_qubits =
        errA.number_of_qubits + errI.number_of_qubits) ∧
    tensor errA errI = expand errI errA :=
  ⟨(c6_tensor_expand_spec errA errI [[9/10, 1/10], [2/10, 8/10]]
      [[1, 0], [0, 1]] ATOL_DEFAULT ATOL_DEFAULT
      (by with_unfolding_all rfl) (by with_unfolding_all rfl)).1
      ⟨kron errA.probabilities errI.probabilities, 2⟩
      (by with_unfolding_all rfl),
   (c6_tensor_expand_spec errA errI [[9/10, 1/10], [2/10, 8/10]]
      [[1, 0], [0, 1]] ATOL_DEFAULT ATOL_DEFAULT
      (by with_unfolding_all rfl) (by with_unfolding_all rfl)).2.2⟩

end ReadoutModel
